import Mathlib

/-!
# Verification of the OpenRouter structured-LLM-call client

Shallow embedding of the TypeScript client in `ai_docs/openrouter-setup.md`
(`_buildRoutingOptions`, `makeOpenrouterCall`, `_callInStructuredOutputMode`,
`_callInJSONMode`, `makeLLMCall`) and proofs about its routing, transport
error handling, and fallback orchestration.

JavaScript values that flow through the client are modelled by an inductive
`Json` type; `undefined` is modelled as `Option.none` at use sites.  JSON
numbers are restricted to integers (no claim involves fractional numbers and
floating point is outside the embedding).  Strings are treated as sequences
of characters; all concrete inputs in the claims are ASCII, where JS UTF-16
code-unit semantics and Lean character semantics agree.
-/

namespace OpenRouter

/-- JSON values (JS objects reachable from `JSON.parse` / response bodies). -/
inductive Json where
  | null : Json
  | bool (b : Bool) : Json
  | num (n : Int) : Json
  | str (s : String) : Json
  | arr (xs : List Json) : Json
  | obj (fields : List (String × Json)) : Json

/-- JS truthiness of a possibly-`undefined` value (`none` = `undefined`). -/
def truthy : Option Json → Bool
  | none => false
  | some Json.null => false
  | some (Json.bool b) => b
  | some (Json.num n) => n != 0
  | some (Json.str s) => s ≠ ""
  | some (Json.arr _) => true
  | some (Json.obj _) => true

/-- Field lookup on an object's field list (first match, JS own-property). -/
def lookupField : List (String × Json) → String → Option Json
  | [], _ => none
  | (k, v) :: rest, key => if k = key then some v else lookupField rest key

/-- JS property access `base.key`: throws a `TypeError` when the base is
`null`/`undefined`; returns `undefined` for properties missing on
non-objects; `length` works on strings and arrays. -/
def jsGet : Option Json → String → Except String (Option Json)
  | none, key => Except.error key
  | some Json.null, key => Except.error key
  | some (Json.obj fs), key => Except.ok (lookupField fs key)
  | some (Json.arr xs), key =>
      if key = "length" then Except.ok (some (Json.num xs.length)) else Except.ok none
  | some (Json.str s), key =>
      if key = "length" then Except.ok (some (Json.num s.length)) else Except.ok none
  | some _, _ => Except.ok none

/-- JS index access `base[i]` for a natural index: arrays index positionally,
strings yield one-character strings, objects look up the decimal key. -/
def jsIndex : Option Json → Nat → Except String (Option Json)
  | none, _ => Except.error "index"
  | some Json.null, _ => Except.error "index"
  | some (Json.arr xs), i => Except.ok (xs.get? i)
  | some (Json.str s), i =>
      Except.ok ((s.data.get? i).map fun c => Json.str (String.mk [c]))
  | some (Json.obj fs), i => Except.ok (lookupField fs (toString i))
  | some _, _ => Except.ok none

/-- JS optional chaining `base?.key`: `undefined` when the base is
`null`/`undefined`, otherwise plain property access. -/
def jsGetOpt (base : Option Json) (key : String) : Except String (Option Json) :=
  match base with
  | none => Except.ok none
  | some Json.null => Except.ok none
  | b => jsGet b key

/-! ## String helpers (JS string methods used by the client) -/

/-- JS whitespace characters relevant to `String.prototype.trim` (ASCII). -/
def isWsChar (c : Char) : Bool :=
  c = ' ' ∨ c = '\n' ∨ c = '\t' ∨ c = '\r'

/-- `String.prototype.trim` (modelled for ASCII whitespace). -/
def jsTrim (s : String) : String :=
  String.mk (((s.data.dropWhile isWsChar).reverse.dropWhile isWsChar).reverse)

def strStartsWith (s pre : String) : Bool :=
  pre.data.isPrefixOf s.data

def strEndsWith (s suf : String) : Bool :=
  suf.data.isSuffixOf s.data

def strDropLeft (s : String) (n : Nat) : String :=
  String.mk (s.data.drop n)

def strDropRight (s : String) (n : Nat) : String :=
  String.mk (s.data.take (s.data.length - n))

/-- `rawContentString.replace(/^```json\n?/, '')`: strip one leading
markdown fence marker (the regex is greedy, so the optional newline is
taken when present). -/
def stripLeadingFence (s : String) : String :=
  if strStartsWith s "```json\n" then strDropLeft s 8
  else if strStartsWith s "```json" then strDropLeft s 7
  else s

/-- `.replace(/\n?```$/, '')`: strip one trailing fence marker, preferring
to take the preceding newline when present. -/
def stripTrailingFence (s : String) : String :=
  if strEndsWith s "\n```" then strDropRight s 4
  else if strEndsWith s "```" then strDropRight s 3
  else s

/-- The cleaning step of `_callInJSONMode`: strip a leading fence, strip a
trailing fence, then trim whitespace. -/
def cleanFences (s : String) : String :=
  jsTrim (stripTrailingFence (stripLeadingFence s))

/-! ## JSON parsing (`JSON.parse`)

A fuel-based recursive-descent parser for the JSON grammar, restricted to
integer numerals and to string escapes `\" \\ \/ \b \f \n \r \t` (no claim
exercises fractional numbers, exponents or `\u` escapes). -/

def skipWs : List Char → List Char
  | [] => []
  | c :: rest => if isWsChar c then skipWs rest else c :: rest

/-- Parse the body of a JSON string literal after the opening quote. -/
def parseStrBody : List Char → List Char → Option (String × List Char)
  | [], _ => none
  | '"' :: rest, acc => some (String.mk acc.reverse, rest)
  | '\\' :: e :: rest, acc =>
      if e = '"' then parseStrBody rest ('"' :: acc)
      else if e = '\\' then parseStrBody rest ('\\' :: acc)
      else if e = '/' then parseStrBody rest ('/' :: acc)
      else if e = 'b' then parseStrBody rest ('\x08' :: acc)
      else if e = 'f' then parseStrBody rest ('\x0c' :: acc)
      else if e = 'n' then parseStrBody rest ('\n' :: acc)
      else if e = 'r' then parseStrBody rest ('\r' :: acc)
      else if e = 't' then parseStrBody rest ('\t' :: acc)
      else none
  | c :: rest, acc => parseStrBody rest (c :: acc)

/-- Take a maximal run of decimal digits. -/
def takeDigits : List Char → List Char × List Char
  | [] => ([], [])
  | c :: rest =>
      if c.isDigit then
        let (d, r) := takeDigits rest
        (c :: d, r)
      else ([], c :: rest)

def digitsToNat (ds : List Char) : Nat :=
  ds.foldl (fun acc c => acc * 10 + (c.toNat - 48)) 0

/-- Parse an unsigned integer numeral; fails on an empty digit run or when
a fractional/exponent part follows (unsupported in this model). -/
def parseNatNum (cs : List Char) : Option (Nat × List Char) :=
  let (ds, rest) := takeDigits cs
  if ds.isEmpty then none
  else
    match rest with
    | '.' :: _ => none
    | 'e' :: _ => none
    | 'E' :: _ => none
    | _ => some (digitsToNat ds, rest)

mutual

def parseVal : Nat → List Char → Option (Json × List Char)
  | 0, _ => none
  | fuel + 1, cs =>
    match skipWs cs with
    | 'n' :: 'u' :: 'l' :: 'l' :: rest => some (Json.null, rest)
    | 't' :: 'r' :: 'u' :: 'e' :: rest => some (Json.bool true, rest)
    | 'f' :: 'a' :: 'l' :: 's' :: 'e' :: rest => some (Json.bool false, rest)
    | '"' :: rest =>
        (parseStrBody rest []).map fun p => (Json.str p.1, p.2)
    | '[' :: rest =>
        (match skipWs rest with
         | ']' :: r2 => some (Json.arr [], r2)
         | _ => parseArrItems fuel rest [])
    | '\x7b' :: rest =>
        (match skipWs rest with
         | '\x7d' :: r2 => some (Json.obj [], r2)
         | _ => parseObjItems fuel rest [])
    | '-' :: rest =>
        (parseNatNum rest).map fun p => (Json.num (-(p.1 : Int)), p.2)
    | c :: rest =>
        if c.isDigit then
          (parseNatNum (c :: rest)).map fun p => (Json.num (p.1 : Int), p.2)
        else none
    | [] => none

def parseArrItems : Nat → List Char → List Json → Option (Json × List Char)
  | 0, _, _ => none
  | fuel + 1, cs, acc =>
    match parseVal fuel cs with
    | none => none
    | some (v, rest) =>
      match skipWs rest with
      | ',' :: r2 => parseArrItems fuel r2 (acc ++ [v])
      | ']' :: r2 => some (Json.arr (acc ++ [v]), r2)
      | _ => none

def parseObjItems : Nat → List Char → List (String × Json) → Option (Json × List Char)
  | 0, _, _ => none
  | fuel + 1, cs, acc =>
    match skipWs cs with
    | '"' :: rest =>
      (match parseStrBody rest [] with
       | none => none
       | some (k, r1) =>
         match skipWs r1 with
         | ':' :: r2 =>
           (match parseVal fuel r2 with
            | none => none
            | some (v, r3) =>
              match skipWs r3 with
              | ',' :: r4 => parseObjItems fuel r4 (acc ++ [(k, v)])
              | '\x7d' :: r4 => some (Json.obj (acc ++ [(k, v)]), r4)
              | _ => none)
         | _ => none)
    | _ => none

end

/-- `JSON.parse` applied to a string: parse one value and require only
whitespace to remain. -/
def parseJSON (s : String) : Option Json :=
  match parseVal (2 * s.data.length + 2) s.data with
  | some (v, rest) => if (skipWs rest).isEmpty then some v else none
  | none => none

/-! ## JS `String(...)` coercion and `JSON.stringify` (pretty, indent 2) -/

mutual

/-- JS `String(v)` coercion for the values of `Json` (used when a
non-string value reaches `JSON.parse`, which coerces its argument). -/
def jsToString : Json → String
  | Json.null => "null"
  | Json.bool true => "true"
  | Json.bool false => "false"
  | Json.num n => toString n
  | Json.str s => s
  | Json.arr xs => jsArrElems xs
  | Json.obj _ => "[object Object]"

def jsArrElems : List Json → String
  | [] => ""
  | [Json.null] => ""
  | [Json.bool b] => jsToString (Json.bool b)
  | [Json.num n] => jsToString (Json.num n)
  | [Json.str s] => s
  | [Json.arr xs] => jsArrElems xs
  | [Json.obj fs] => jsToString (Json.obj fs)
  | Json.null :: rest => "," ++ jsArrElems rest
  | x :: rest => jsToString x ++ "," ++ jsArrElems rest

end

def escapeJsonChar (c : Char) : String :=
  if c = '"' then "\\\""
  else if c = '\\' then "\\\\"
  else if c = '\n' then "\\n"
  else if c = '\r' then "\\r"
  else if c = '\t' then "\\t"
  else if c = '\x08' then "\\b"
  else if c = '\x0c' then "\\f"
  else String.mk [c]

def quoteJsonStr (s : String) : String :=
  "\"" ++ String.join (s.data.map escapeJsonChar) ++ "\""

def spaces : Nat → String
  | 0 => ""
  | n + 1 => " " ++ spaces n

mutual

/-- `JSON.stringify(v, null, 2)` at a given current indentation depth. -/
def stringify2 : Nat → Json → String
  | _, Json.null => "null"
  | _, Json.bool true => "true"
  | _, Json.bool false => "false"
  | _, Json.num n => toString n
  | _, Json.str s => quoteJsonStr s
  | _, Json.arr [] => "[]"
  | ind, Json.arr (x :: xs) =>
      "[\n" ++ stringifyArrItems (ind + 2) (x :: xs) ++ "\n" ++ spaces ind ++ "]"
  | _, Json.obj [] => "\x7b\x7d"
  | ind, Json.obj (f :: fs) =>
      "\x7b\n" ++ stringifyObjItems (ind + 2) (f :: fs) ++ "\n" ++ spaces ind ++ "\x7d"

def stringifyArrItems : Nat → List Json → String
  | _, [] => ""
  | ind, [x] => spaces ind ++ stringify2 ind x
  | ind, x :: rest => spaces ind ++ stringify2 ind x ++ ",\n" ++ stringifyArrItems ind rest

def stringifyObjItems : Nat → List (String × Json) → String
  | _, [] => ""
  | ind, [(k, v)] => spaces ind ++ quoteJsonStr k ++ ": " ++ stringify2 ind v
  | ind, (k, v) :: rest =>
      spaces ind ++ quoteJsonStr k ++ ": " ++ stringify2 ind v ++ ",\n" ++
        stringifyObjItems ind rest

end

/-- `JSON.stringify(v, null, 2)`. -/
def stringifyPretty (v : Json) : String := stringify2 0 v

/-! ## Data model: `ModelInfo`, `RoutingOptions`, the model registry -/

/-- `providerSort?: 'price' | 'throughput' | 'latency'`. -/
inductive ProviderSort where
  | price
  | throughput
  | latency
  deriving Repr, DecidableEq

/-- The `RoutingOptions` interface: all three fields optional
(`none` = the TS field is absent/`undefined`). -/
structure RoutingOptions where
  providerSort : Option ProviderSort := none
  providerOrder : Option (List String) := none
  ignoredProviders : Option (List String) := none
  deriving Repr, DecidableEq

/-- The `ModelInfo` interface: id, structured-output capability flag and
optional default routing options. -/
structure ModelInfo where
  id : String
  supportsStructuredOutput : Bool
  defaultRoutingOptions : Option RoutingOptions := none
  deriving Repr, DecidableEq

/- The `Models` registry (the full declarative table from the source). -/
namespace Models

def GPT4o : ModelInfo :=
  { id := "openai/chatgpt-4o-latest", supportsStructuredOutput := true }

def GPT4_1Mini : ModelInfo :=
  { id := "openai/gpt-4.1-mini", supportsStructuredOutput := true }

def GPT4_1Nano : ModelInfo :=
  { id := "openai/gpt-4.1-nano", supportsStructuredOutput := true }

def GPT35Turbo : ModelInfo :=
  { id := "openai/gpt-3.5-turbo-0125", supportsStructuredOutput := false }

def O3Mini : ModelInfo :=
  { id := "openai/o3-mini", supportsStructuredOutput := true }

def GeminiPro : ModelInfo :=
  { id := "google/gemini-pro-1.5", supportsStructuredOutput := true }

def GeminiFlash : ModelInfo :=
  { id := "google/gemini-2.0-flash-001", supportsStructuredOutput := true }

def Claude : ModelInfo :=
  { id := "anthropic/claude-3.5-sonnet", supportsStructuredOutput := true }

def DeepseekR1 : ModelInfo :=
  { id := "deepseek/deepseek-r1", supportsStructuredOutput := true,
    defaultRoutingOptions := some
      { providerSort := some ProviderSort.price,
        ignoredProviders := some ["InferenceNet"] } }

def DeepseekV3 : ModelInfo :=
  { id := "deepseek/deepseek-chat-v3-0324", supportsStructuredOutput := true,
    defaultRoutingOptions := some
      { providerSort := some ProviderSort.price,
        ignoredProviders := some ["InferenceNet"] } }

def DeepseekR1DistillLlama70B : ModelInfo :=
  { id := "deepseek/deepseek-r1-distill-llama-70b", supportsStructuredOutput := true,
    defaultRoutingOptions := some
      { providerSort := some ProviderSort.price,
        ignoredProviders := some ["InferenceNet"] } }

def DeepseekR1DistillQwen32B : ModelInfo :=
  { id := "deepseek/deepseek-r1-distill-qwen-32b", supportsStructuredOutput := false,
    defaultRoutingOptions := some
      { ignoredProviders := some ["InferenceNet"] } }

def QwenQwq32B : ModelInfo :=
  { id := "qwen/qwq-32b", supportsStructuredOutput := true }

end Models

/-! ## Routing Policy Builder (`_buildRoutingOptions`) -/

/-- The provider-preferences object built for the request.  `none` for
`sort`/`order`/`ignore` means the field is absent from the object. -/
structure ProviderPrefs where
  require_parameters : Bool
  sort : Option ProviderSort := none
  order : Option (List String) := none
  ignore : Option (List String) := none
  deriving Repr, DecidableEq

/-- `_buildRoutingOptions`: merges caller overrides with the primary
model's defaults (`override ?? default` per field), includes `order` and
`ignore` only when the resolved list is non-empty, always sets
`require_parameters := true`, and maps the backup models to their ids. -/
def _buildRoutingOptions (primaryModel : ModelInfo) (backupModels : List ModelInfo)
    (overrideOptions : Option RoutingOptions := none) :
    ProviderPrefs × List String :=
  let finalSort := (overrideOptions.bind fun o => o.providerSort).orElse fun _ =>
    primaryModel.defaultRoutingOptions.bind fun d => d.providerSort
  let finalOrder := (overrideOptions.bind fun o => o.providerOrder).orElse fun _ =>
    primaryModel.defaultRoutingOptions.bind fun d => d.providerOrder
  let finalIgnore := (overrideOptions.bind fun o => o.ignoredProviders).orElse fun _ =>
    primaryModel.defaultRoutingOptions.bind fun d => d.ignoredProviders
  let providerPrefs : ProviderPrefs :=
    { require_parameters := true
      sort := finalSort
      order := match finalOrder with
        | some l => if l.length > 0 then some l else none
        | none => none
      ignore := match finalIgnore with
        | some l => if l.length > 0 then some l else none
        | none => none }
  let fallbackModelIds := if backupModels.length > 0 then backupModels.map (fun m => m.id) else []
  (providerPrefs, fallbackModelIds)

/-! ## Transport (`makeOpenrouterCall`) -/

/-- The body of a fetch `Response`, by how its one-shot readers behave:
`jsonBody j` means `.json()` resolves to `j`; `textBody t` means `.json()`
throws but `.text()` yields `t`; `unreadable` means both throw. -/
inductive RespBody where
  | jsonBody (j : Json)
  | textBody (t : String)
  | unreadable

/-- The observable part of a fetch `Response`. -/
structure FetchResponse where
  ok : Bool
  status : Int
  statusText : String
  body : RespBody

/-- Outcome of the `fetch` call: resolved with a response, rejected with an
`Error` carrying a message, or rejected with a non-`Error` value. -/
inductive FetchResult where
  | resolved (resp : FetchResponse)
  | rejected (msg : String)
  | rejectedNonError

/-- The diagnostic payload the transport reports alongside a non-OK
response (the `errorDetails` variable of the source). -/
inductive ErrDetails where
  | structuredErr (code : Json) (message : Json) (metadata : Option Json)
  | rawJson (body : Json)
  | rawText (t : String)
  | unreadableBody

/-- Error taxonomy of the transport, one constructor per distinct throw
site of `makeOpenrouterCall`. -/
inductive ORError where
  | missingApiKey
  | typeError (prop : String)
  | okBodyNotJson
  | emptyCompletion
  | apiError (code : Json) (message : Json) (details : ErrDetails)
  | fetchFailed (msg : String)
  | unknownThrown

/-- The message of the `Error` thrown for a non-OK response:
``OpenRouter API request failed (${errorCode}): ${errorMessage}``. -/
def apiErrorText (code message : Json) : String :=
  "OpenRouter API request failed (" ++ jsToString code ++ "): " ++ jsToString message

/-- Non-throwing JS property access, used only where the base is already
known truthy (so the real access cannot raise). -/
def jsGetSafe (v : Option Json) (k : String) : Option Json :=
  match jsGet v k with
  | Except.ok r => r
  | Except.error _ => none

/-- JS `x || dflt` for a possibly-undefined value: keep `x` when truthy. -/
def jsOr (v : Option Json) (dflt : Json) : Json :=
  match v with
  | some j => if truthy (some j) then j else dflt
  | none => dflt

/-- The success-branch content check:
`!data.choices || data.choices.length === 0 || !data.choices[0].message?.content`
with JS evaluation order, short-circuiting, and `TypeError` on property
access over `null`/`undefined`; on pass, returns
`data.choices[0].message.content`. -/
def extractContent (data : Json) : Except ORError Json :=
  match jsGet (some data) "choices" with
  | Except.error p => Except.error (ORError.typeError p)
  | Except.ok choices =>
    if !truthy choices then Except.error ORError.emptyCompletion
    else
      let lenVal := jsGetSafe choices "length"
      let lenIsZero : Bool := match lenVal with
        | some (Json.num n) => n == 0
        | _ => false
      if lenIsZero then Except.error ORError.emptyCompletion
      else
        match jsIndex choices 0 with
        | Except.error p => Except.error (ORError.typeError p)
        | Except.ok c0 =>
          match jsGet c0 "message" with
          | Except.error p => Except.error (ORError.typeError p)
          | Except.ok msg =>
            match jsGetOpt msg "content" with
            | Except.error p => Except.error (ORError.typeError p)
            | Except.ok content =>
              if !truthy content then Except.error ORError.emptyCompletion
              else
                match content with
                | some c => Except.ok c
                | none => Except.error ORError.emptyCompletion

/-- The non-OK branch: derive `errorCode`, `errorMessage` and
`errorDetails` from the status, status text and body exactly as the
source's `try`/`catch` ladder does. -/
def classifyErrorBody (status : Int) (statusText : String) (body : RespBody) :
    Json × Json × ErrDetails :=
  match body with
  | RespBody.jsonBody ej =>
    let errField := jsGetSafe (some ej) "error"
    if truthy (some ej) && truthy errField then
      let errorCode := jsOr (jsGetSafe errField "code") (Json.num status)
      let errorMessage := jsOr (jsGetSafe errField "message") (Json.str statusText)
      let metadata := jsGetSafe errField "metadata"
      (errorCode, errorMessage, ErrDetails.structuredErr errorCode errorMessage metadata)
    else
      (Json.num status, Json.str statusText, ErrDetails.rawJson ej)
  | RespBody.textBody t =>
      (Json.num status, Json.str statusText, ErrDetails.rawText t)
  | RespBody.unreadable =>
      (Json.num status, Json.str statusText, ErrDetails.unreadableBody)

/-- Result of the transport: whether `fetch` was invoked, and either the
content value of `choices[0].message.content` or a categorized error. -/
structure TransportResult where
  networkAttempted : Bool
  outcome : Except ORError Json

/-- `makeOpenrouterCall`: check the credential (`!OPENROUTER_API_KEY`,
falsy when unset or empty), then issue the fetch and normalize the
response.  Every `Error` raised in the body is re-thrown unchanged by the
source's outer `catch`; a non-`Error` thrown value is wrapped. -/
def makeOpenrouterCall (apiKey : Option String) (fr : FetchResult) : TransportResult :=
  if !truthy (apiKey.map Json.str) then
    { networkAttempted := false, outcome := Except.error ORError.missingApiKey }
  else
    match fr with
    | FetchResult.rejected msg =>
        { networkAttempted := true, outcome := Except.error (ORError.fetchFailed msg) }
    | FetchResult.rejectedNonError =>
        { networkAttempted := true, outcome := Except.error ORError.unknownThrown }
    | FetchResult.resolved resp =>
      if resp.ok then
        match resp.body with
        | RespBody.jsonBody data =>
            { networkAttempted := true, outcome := extractContent data }
        | _ =>
            { networkAttempted := true, outcome := Except.error ORError.okBodyNotJson }
      else
        let (c, m, d) := classifyErrorBody resp.status resp.statusText resp.body
        { networkAttempted := true, outcome := Except.error (ORError.apiError c m d) }

/-! ## Call strategy (`_callInStructuredOutputMode`, `_callInJSONMode`,
`makeLLMCall`) -/

/-- A caller-supplied Zod schema, by its observable behaviour: the JSON
Schema produced by `zodToJsonSchema(schema)`, the one produced with
`removeAdditionalStrategy: "strict"` for the hint (`none` when that
conversion throws), and `safeParse` (`some data` on success). -/
structure Schema where
  jsonSchema : Json
  hintSchema : Option Json := none
  safeParse : Json → Option Json

/-- `response_format` of the outbound request. -/
inductive ResponseFormat where
  | json_schema (name : String) (strict : Bool) (schema : Json)
  | json_object

/-- The outbound request body assembled for one network attempt. -/
structure RequestBody where
  model : String
  messages : List (String × String)
  response_format : ResponseFormat
  provider : ProviderPrefs
  models : List String

/-- Errors of the call-strategy layer, one constructor per throw site
(transport errors are embedded and re-thrown unchanged). -/
inductive CallError where
  | transport (e : ORError)
  | structuredParseFailed
  | zodValidationFailed
  | jsonModeParseFailed
  | jsTypeErr (prop : String)

/-- Arguments of `_callInStructuredOutputMode` (after defaulting). -/
structure StructuredArgs where
  systemPrompt : String
  userPrompt : String
  primaryModel : ModelInfo
  backupModels : List ModelInfo := []
  schema : Schema
  schemaName : String := "response"
  routingOptions : Option RoutingOptions := none

/-- The request body `_callInStructuredOutputMode` sends. -/
def structuredRequestBody (args : StructuredArgs) : RequestBody :=
  let pair := _buildRoutingOptions args.primaryModel args.backupModels args.routingOptions
  { model := args.primaryModel.id
    messages := [("system", args.systemPrompt), ("user", args.userPrompt)]
    response_format := ResponseFormat.json_schema args.schemaName true args.schema.jsonSchema
    provider := pair.1
    models := pair.2 }

/-- `_callInStructuredOutputMode`: send the strict-schema request, parse
the returned content as JSON, then validate with the Zod schema.  Also
returns the list of network requests actually issued. -/
def _callInStructuredOutputMode (apiKey : Option String)
    (fetchNet : RequestBody → FetchResult) (args : StructuredArgs) :
    List RequestBody × Except CallError Json :=
  let req := structuredRequestBody args
  let tr := makeOpenrouterCall apiKey (fetchNet req)
  let reqs := if tr.networkAttempted then [req] else []
  match tr.outcome with
  | Except.error e => (reqs, Except.error (CallError.transport e))
  | Except.ok content =>
    match parseJSON (jsToString content) with
    | none => (reqs, Except.error CallError.structuredParseFailed)
    | some parsed =>
      match args.schema.safeParse parsed with
      | none => (reqs, Except.error CallError.zodValidationFailed)
      | some data => (reqs, Except.ok data)

/-- The default system prompt of JSON mode. -/
def defaultJsonModeSystemPrompt : String :=
  "You are an AI assistant. Your task is to respond STRICTLY with valid JSON format. Do NOT include any explanations, introductory text, or markdown code fences (like ```json). Only output the raw JSON object."

/-- The default system prompt of the structured branch of `makeLLMCall`. -/
def defaultStructuredSystemPrompt : String :=
  "You are a helpful AI assistant designed to output structured data according to the provided schema."

/-- JS `v || dflt` for an optional string (empty string is falsy). -/
def jsOrStr (v : Option String) (dflt : String) : String :=
  match v with
  | some s => if s = "" then dflt else s
  | none => dflt

/-- Arguments of `_callInJSONMode` (after defaulting). -/
structure JsonModeArgs where
  systemPrompt : Option String := none
  userPrompt : String
  primaryModel : ModelInfo
  backupModels : List ModelInfo := []
  routingOptions : Option RoutingOptions := none

/-- The request body `_callInJSONMode` sends. -/
def jsonModeRequestBody (args : JsonModeArgs) : RequestBody :=
  let actualSystemPrompt := jsOrStr args.systemPrompt defaultJsonModeSystemPrompt
  let pair := _buildRoutingOptions args.primaryModel args.backupModels args.routingOptions
  { model := args.primaryModel.id
    messages := [("system", actualSystemPrompt), ("user", args.userPrompt)]
    response_format := ResponseFormat.json_object
    provider := pair.1
    models := pair.2 }

/-- `_callInJSONMode`: send the `json_object` request, clean markdown
fences off the returned string, parse it as JSON and return the parsed
value unvalidated.  The non-string-content corner raises the `TypeError`
of `rawContentString.replace` just as the source would. -/
def _callInJSONMode (apiKey : Option String) (fetchNet : RequestBody → FetchResult)
    (args : JsonModeArgs) : List RequestBody × Except CallError Json :=
  let req := jsonModeRequestBody args
  let tr := makeOpenrouterCall apiKey (fetchNet req)
  let reqs := if tr.networkAttempted then [req] else []
  match tr.outcome with
  | Except.error e => (reqs, Except.error (CallError.transport e))
  | Except.ok content =>
    match content with
    | Json.str raw =>
      let cleanedContent := cleanFences raw
      match parseJSON cleanedContent with
      | some parsedJson => (reqs, Except.ok parsedJson)
      | none => (reqs, Except.error CallError.jsonModeParseFailed)
    | _ => (reqs, Except.error (CallError.jsTypeErr "replace"))

/-- Arguments of the public entry point `makeLLMCall` (after defaulting). -/
structure MakeLLMCallArgs where
  systemPrompt : Option String := none
  userPrompt : String
  primaryModel : ModelInfo
  backupModels : List ModelInfo := []
  schema : Option Schema := none
  schemaName : String := "response"
  forceJsonMode : Bool := false
  routingOptions : Option RoutingOptions := none

/-- The schema-hint block appended to the user prompt for JSON mode when a
schema is available (and its strict conversion does not throw). -/
def promptWithHint (userPrompt : String) (schema : Option Schema) : String :=
  match schema with
  | none => userPrompt
  | some sch =>
    match sch.hintSchema with
    | none => userPrompt
    | some hj =>
        userPrompt ++ "\n\n--- JSON STRUCTURE HINT --- Please try to follow this structure:\n" ++
          stringifyPretty hj ++ "\n--- END JSON STRUCTURE HINT ---"

/-- Trace of one `makeLLMCall` invocation: which helper calls were made
and with which arguments, the network requests issued in order, and the
final result. -/
structure LLMTrace where
  structuredCall : Option StructuredArgs
  structuredResult : Option (Except CallError Json)
  jsonCall : Option JsonModeArgs
  networkRequests : List RequestBody
  result : Except CallError Json

/-- The JSON-mode tail of `makeLLMCall`, shared by every path that reaches
it: append the hint, then call `_callInJSONMode` with the (possibly
demoted) primary/backup models. -/
def jsonPhase (apiKey : Option String) (fetchNet : RequestBody → FetchResult)
    (args : MakeLLMCallArgs) (pm : ModelInfo) (bm : List ModelInfo) :
    JsonModeArgs × List RequestBody × Except CallError Json :=
  let jargs : JsonModeArgs :=
    { systemPrompt := args.systemPrompt
      userPrompt := promptWithHint args.userPrompt args.schema
      primaryModel := pm
      backupModels := bm
      routingOptions := args.routingOptions }
  let jres := _callInJSONMode apiKey fetchNet jargs
  (jargs, jres.1, jres.2)

/-- `makeLLMCall`: attempt structured mode iff the model supports it, a
schema was given and JSON mode was not forced; on structured failure,
demote the first backup (if any) to primary and fall back to JSON mode. -/
def makeLLMCall (apiKey : Option String) (fetchNet : RequestBody → FetchResult)
    (args : MakeLLMCallArgs) : LLMTrace :=
  match args.schema with
  | some schema =>
    if args.primaryModel.supportsStructuredOutput && !args.forceJsonMode then
      let actualSystemPrompt := jsOrStr args.systemPrompt defaultStructuredSystemPrompt
      let sargs : StructuredArgs :=
        { systemPrompt := actualSystemPrompt
          userPrompt := args.userPrompt
          primaryModel := args.primaryModel
          backupModels := args.backupModels
          schema := schema
          schemaName := args.schemaName
          routingOptions := args.routingOptions }
      let sres := _callInStructuredOutputMode apiKey fetchNet sargs
      match sres.2 with
      | Except.ok v =>
          { structuredCall := some sargs, structuredResult := some (Except.ok v),
            jsonCall := none, networkRequests := sres.1, result := Except.ok v }
      | Except.error e =>
          let demoted : ModelInfo × List ModelInfo :=
            match args.backupModels with
            | [] => (args.primaryModel, [])
            | b :: bs => (b, bs)
          let jp := jsonPhase apiKey fetchNet args demoted.1 demoted.2
          { structuredCall := some sargs, structuredResult := some (Except.error e),
            jsonCall := some jp.1, networkRequests := sres.1 ++ jp.2.1, result := jp.2.2 }
    else
      let jp := jsonPhase apiKey fetchNet args args.primaryModel args.backupModels
      { structuredCall := none, structuredResult := none,
        jsonCall := some jp.1, networkRequests := jp.2.1, result := jp.2.2 }
  | none =>
      let jp := jsonPhase apiKey fetchNet args args.primaryModel args.backupModels
      { structuredCall := none, structuredResult := none,
        jsonCall := some jp.1, networkRequests := jp.2.1, result := jp.2.2 }

/-- The routing-field behaviour exactly as claim C3 words it, for the
refinement comparison: each of the three fields carries the override when
one is supplied, else the model default, else is absent. -/
def claimedRoutingPrefs (primaryModel : ModelInfo) (overrideOptions : Option RoutingOptions) :
    ProviderPrefs :=
  { require_parameters := true
    sort := (overrideOptions.bind fun o => o.providerSort).orElse fun _ =>
      primaryModel.defaultRoutingOptions.bind fun d => d.providerSort
    order := (overrideOptions.bind fun o => o.providerOrder).orElse fun _ =>
      primaryModel.defaultRoutingOptions.bind fun d => d.providerOrder
    ignore := (overrideOptions.bind fun o => o.ignoredProviders).orElse fun _ =>
      primaryModel.defaultRoutingOptions.bind fun d => d.ignoredProviders }

/-! ## General lemmas about trimming and fence stripping -/

theorem dropWhile_head_not (p : Char → Bool) :
    ∀ (l : List Char) (c : Char) (r : List Char), l.dropWhile p = c :: r → p c = false := by
  intro l
  induction l with
  | nil => intro c r h; cases h
  | cons a t ih =>
    intro c r h
    by_cases hp : p a
    · rw [List.dropWhile_cons_of_pos hp] at h
      exact ih c r h
    · rw [List.dropWhile_cons_of_neg hp] at h
      cases h
      simpa using hp

theorem dropWhile_of_head_not (p : Char → Bool) (l : List Char)
    (h : ∀ c r, l = c :: r → p c = false) : l.dropWhile p = l := by
  cases l with
  | nil => rfl
  | cons a t => exact List.dropWhile_cons_of_neg (by simp [h a t rfl])

theorem dropWhile_append_exists (p : Char → Bool) (l : List Char) :
    ∃ t, t ++ l.dropWhile p = l := by
  induction l with
  | nil => exact ⟨[], rfl⟩
  | cons a t ih =>
    by_cases hp : p a
    · obtain ⟨u, hu⟩ := ih
      exact ⟨a :: u, by rw [List.dropWhile_cons_of_pos hp]; simpa using hu⟩
    · exact ⟨[], by rw [List.dropWhile_cons_of_neg hp]; rfl⟩

/-- The head of the fully trimmed character list is never whitespace. -/
theorem trimList_head (l : List Char) (c : Char) (r : List Char)
    (h : ((l.dropWhile isWsChar).reverse.dropWhile isWsChar).reverse = c :: r) :
    isWsChar c = false := by
  obtain ⟨u, hu⟩ := dropWhile_append_exists isWsChar (l.dropWhile isWsChar).reverse
  have hd : l.dropWhile isWsChar
      = ((l.dropWhile isWsChar).reverse.dropWhile isWsChar).reverse ++ u.reverse := by
    have := congrArg List.reverse hu
    simpa [List.reverse_append] using this.symm
  rw [h] at hd
  exact dropWhile_head_not isWsChar l c _ hd

/-- `jsTrim` is idempotent. -/
theorem jsTrim_idem (s : String) : jsTrim (jsTrim s) = jsTrim s := by
  unfold jsTrim
  congr 1
  have hdata : (String.mk ((((s.data.dropWhile isWsChar).reverse.dropWhile
      isWsChar).reverse))).data
      = ((s.data.dropWhile isWsChar).reverse.dropWhile isWsChar).reverse := rfl
  rw [hdata]
  have h1 : (((s.data.dropWhile isWsChar).reverse.dropWhile isWsChar).reverse).dropWhile
      isWsChar = ((s.data.dropWhile isWsChar).reverse.dropWhile isWsChar).reverse :=
    dropWhile_of_head_not _ _ (fun c r h => trimList_head s.data c r h)
  rw [h1, List.reverse_reverse]
  have h2 : ((s.data.dropWhile isWsChar).reverse.dropWhile isWsChar).dropWhile isWsChar
      = (s.data.dropWhile isWsChar).reverse.dropWhile isWsChar :=
    dropWhile_of_head_not _ _ (fun c r h => dropWhile_head_not isWsChar _ c r h)
  rw [h2]

theorem strStartsWith_longer (s : String) (h : strStartsWith s "```json\n" = true) :
    strStartsWith s "```json" = true := by
  unfold strStartsWith at *
  rw [List.isPrefixOf_iff_prefix] at *
  exact List.IsPrefix.trans ⟨['\n'], rfl⟩ h

theorem strEndsWith_longer (s : String) (h : strEndsWith s "\n```" = true) :
    strEndsWith s "```" = true := by
  unfold strEndsWith at *
  rw [List.isSuffixOf_iff_suffix] at *
  exact List.IsSuffix.trans ⟨['\n'], rfl⟩ h

theorem stripLeadingFence_id (s : String) (h : strStartsWith s "```json" = false) :
    stripLeadingFence s = s := by
  have h8 : strStartsWith s "```json\n" = false := by
    by_contra hc
    simp only [Bool.not_eq_false] at hc
    rw [strStartsWith_longer s hc] at h
    cases h
  simp [stripLeadingFence, h, h8]

theorem stripTrailingFence_id (s : String) (h : strEndsWith s "```" = false) :
    stripTrailingFence s = s := by
  have h4 : strEndsWith s "\n```" = false := by
    by_contra hc
    simp only [Bool.not_eq_false] at hc
    rw [strEndsWith_longer s hc] at h
    cases h
  simp [stripTrailingFence, h, h4]

theorem cleanFences_is_trim_of (s : String) :
    cleanFences s = jsTrim (stripTrailingFence (stripLeadingFence s)) := rfl

/-- `cleanFences` is idempotent on strings whose cleaned form does not
itself re-expose a fence marker. -/
theorem cleanFences_cond_idem (s : String)
    (h1 : strStartsWith (cleanFences s) "```json" = false)
    (h2 : strEndsWith (cleanFences s) "```" = false) :
    cleanFences (cleanFences s) = cleanFences s := by
  have step : cleanFences (cleanFences s) = jsTrim (cleanFences s) := by
    rw [cleanFences_is_trim_of (cleanFences s), stripLeadingFence_id _ h1,
      stripTrailingFence_id _ h2]
  rw [step, cleanFences_is_trim_of s, jsTrim_idem]

/-! ## Claim theorems -/

/-- Claim C1: for every call to `makeLLMCall`, structured-output mode is
attempted iff the primary model's `supportsStructuredOutput` flag is true,
a schema was supplied, and `forceJsonMode` is false; in every other case
the call goes directly to the JSON-mode attempt with no structured
attempt. -/
theorem makeLLMCall_structured_iff (apiKey : Option String)
    (fetchNet : RequestBody → FetchResult) (args : MakeLLMCallArgs) :
    (makeLLMCall apiKey fetchNet args).structuredCall.isSome
      = (args.primaryModel.supportsStructuredOutput && args.schema.isSome && !args.forceJsonMode)
    ∧ ((args.primaryModel.supportsStructuredOutput && args.schema.isSome && !args.forceJsonMode) = false
        → (makeLLMCall apiKey fetchNet args).structuredCall = none
          ∧ (makeLLMCall apiKey fetchNet args).jsonCall.isSome = true) := by
  rcases args with ⟨sp, up, pm, bm, sch, sn, fj, ro⟩
  cases sch with
  | none => simp [makeLLMCall, jsonPhase]
  | some s =>
    by_cases h : pm.supportsStructuredOutput && !fj
    · rcases h' : (_callInStructuredOutputMode apiKey fetchNet
        { systemPrompt := jsOrStr sp defaultStructuredSystemPrompt, userPrompt := up,
          primaryModel := pm, backupModels := bm, schema := s, schemaName := sn,
          routingOptions := ro }).2 with v | e <;>
        simp [makeLLMCall, jsonPhase, h, h']
    · simp [makeLLMCall, jsonPhase, h]

/-- Witness for C1: a model with `supportsStructuredOutput = false` and a
supplied schema goes straight to JSON mode with no structured attempt. -/
theorem makeLLMCall_structured_iff_witness :
    (makeLLMCall (some "key") (fun _ => FetchResult.rejected "down")
      { userPrompt := "p", primaryModel := Models.GPT35Turbo,
        schema := some { jsonSchema := Json.obj [], safeParse := fun v => some v } }).structuredCall
      = none
    ∧ (makeLLMCall (some "key") (fun _ => FetchResult.rejected "down")
      { userPrompt := "p", primaryModel := Models.GPT35Turbo,
        schema := some { jsonSchema := Json.obj [], safeParse := fun v => some v } }).jsonCall.isSome
      = true :=
  (makeLLMCall_structured_iff (some "key") (fun _ => FetchResult.rejected "down")
    { userPrompt := "p", primaryModel := Models.GPT35Turbo,
      schema := some { jsonSchema := Json.obj [], safeParse := fun v => some v } }).2
    (by decide)

/-- Claim C2: demotion policy — when the structured attempt fails and the
backup list is non-empty, the JSON-mode attempt's primary model is the
first backup and the remaining backups are the tail; when the backup list
is empty the JSON-mode attempt keeps the original primary model. -/
theorem makeLLMCall_demotion (apiKey : Option String)
    (fetchNet : RequestBody → FetchResult) (args : MakeLLMCallArgs) (e : CallError)
    (hfail : (makeLLMCall apiKey fetchNet args).structuredResult = some (Except.error e)) :
    ∃ jargs, (makeLLMCall apiKey fetchNet args).jsonCall = some jargs
      ∧ (args.backupModels = [] →
           jargs.primaryModel = args.primaryModel ∧ jargs.backupModels = [])
      ∧ (∀ b bs, args.backupModels = b :: bs →
           jargs.primaryModel = b ∧ jargs.backupModels = bs) := by
  rcases args with ⟨sp, up, pm, bm, sch, sn, fj, ro⟩
  cases sch with
  | none => simp [makeLLMCall, jsonPhase] at hfail
  | some s =>
    by_cases h : pm.supportsStructuredOutput && !fj
    · rcases h' : (_callInStructuredOutputMode apiKey fetchNet
        { systemPrompt := jsOrStr sp defaultStructuredSystemPrompt, userPrompt := up,
          primaryModel := pm, backupModels := bm, schema := s, schemaName := sn,
          routingOptions := ro }).2 with v | e' <;>
        simp [makeLLMCall, jsonPhase, h, h'] at hfail ⊢
      cases bm with
      | nil => simp
      | cons b bs => simp
    · simp [makeLLMCall, jsonPhase, h] at hfail

/-- Witness for C2: a failing structured attempt with two backups demotes
the first backup to primary for JSON mode. -/
theorem makeLLMCall_demotion_witness :
    ∃ jargs,
      (makeLLMCall (some "key") (fun _ => FetchResult.rejected "boom")
        { userPrompt := "p", primaryModel := Models.GPT4o,
          backupModels := [Models.GeminiPro, Models.Claude],
          schema := some { jsonSchema := Json.obj [], safeParse := fun v => some v } }).jsonCall
        = some jargs
      ∧ ([Models.GeminiPro, Models.Claude] = ([] : List ModelInfo) →
           jargs.primaryModel = Models.GPT4o ∧ jargs.backupModels = [])
      ∧ (∀ b bs, [Models.GeminiPro, Models.Claude] = b :: bs →
           jargs.primaryModel = b ∧ jargs.backupModels = bs) :=
  makeLLMCall_demotion (some "key") (fun _ => FetchResult.rejected "boom")
    { userPrompt := "p", primaryModel := Models.GPT4o,
      backupModels := [Models.GeminiPro, Models.Claude],
      schema := some { jsonSchema := Json.obj [], safeParse := fun v => some v } }
    (CallError.transport (ORError.fetchFailed "boom")) rfl

/-- Counterexample for C3: a caller override carrying an empty
`ignoredProviders` list does not make the built preferences "use the
caller's override value" — the field is omitted entirely (suppressing the
model's non-empty default), so the built object differs from the
claim-described one. -/
theorem buildRoutingOptions_c3_counterexample :
    (_buildRoutingOptions Models.DeepseekR1 []
        (some { ignoredProviders := some [] })).1.ignore = none
    ∧ (claimedRoutingPrefs Models.DeepseekR1
        (some { ignoredProviders := some [] })).ignore = some []
    ∧ (_buildRoutingOptions Models.DeepseekR1 []
        (some { ignoredProviders := some [] })).1
        ≠ claimedRoutingPrefs Models.DeepseekR1 (some { ignoredProviders := some [] }) := by
  refine ⟨rfl, rfl, ?_⟩
  decide

/-- Claim C3 (amended): the built preferences follow per-field precedence
(override if supplied, else the model default) exactly for `sort`; for
`order` and `ignore` the resolved value is kept only when it is a
non-empty list and the field is omitted otherwise; `require_parameters`
is always true; the fallback id list is the backup models' ids in
order. -/
theorem buildRoutingOptions_precedence (pm : ModelInfo) (backups : List ModelInfo)
    (ov : Option RoutingOptions) :
    (_buildRoutingOptions pm backups ov).1.require_parameters = true
    ∧ (_buildRoutingOptions pm backups ov).1.sort = (claimedRoutingPrefs pm ov).sort
    ∧ (_buildRoutingOptions pm backups ov).1.order
        = (match (claimedRoutingPrefs pm ov).order with
            | some l => if l.length > 0 then some l else none
            | none => none)
    ∧ (_buildRoutingOptions pm backups ov).1.ignore
        = (match (claimedRoutingPrefs pm ov).ignore with
            | some l => if l.length > 0 then some l else none
            | none => none)
    ∧ (_buildRoutingOptions pm backups ov).2 = backups.map (fun m => m.id) := by
  refine ⟨rfl, rfl, rfl, rfl, ?_⟩
  cases backups <;> simp [_buildRoutingOptions]

/-- Claim C4: with the API credential absent, the transport fails with the
missing-credential configuration error and no network call is
attempted. -/
theorem makeOpenrouterCall_missing_key (fr : FetchResult) :
    (makeOpenrouterCall none fr).networkAttempted = false
    ∧ (makeOpenrouterCall none fr).outcome = Except.error ORError.missingApiKey :=
  ⟨rfl, rfl⟩

/-- Counterexample for C5: the HTTP-success body
`\x7b"choices":[null]\x7d` lacks a non-empty `choices[0].message.content`,
yet the transport raises the `TypeError` of reading `message` on `null`,
not `EmptyCompletion`. -/
theorem extractContent_c5_counterexample :
    (makeOpenrouterCall (some "key") (FetchResult.resolved
        { ok := true, status := 200, statusText := "OK",
          body := RespBody.jsonBody (Json.obj [("choices", Json.arr [Json.null])]) })).outcome
      = Except.error (ORError.typeError "message")
    ∧ (makeOpenrouterCall (some "key") (FetchResult.resolved
        { ok := true, status := 200, statusText := "OK",
          body := RespBody.jsonBody (Json.obj [("choices", Json.arr [Json.null])]) })).outcome
      ≠ Except.error ORError.emptyCompletion := by
  refine ⟨rfl, ?_⟩
  intro h
  rw [show (makeOpenrouterCall (some "key") (FetchResult.resolved
      { ok := true, status := 200, statusText := "OK",
        body := RespBody.jsonBody (Json.obj [("choices", Json.arr [Json.null])]) })).outcome
      = Except.error (ORError.typeError "message") from rfl] at h
  cases h

/-- Claim C5 (amended): on an HTTP-success JSON body, missing `choices`,
an empty `choices` array, or a first choice whose message lacks truthy
content all yield `EmptyCompletion`; but a `null` first choice raises a
`TypeError`-kind failure instead; when truthy content is present it is
returned verbatim. -/
theorem makeOpenrouterCall_success_content (key : String) (hk : key ≠ "")
    (resp : FetchResponse) (hok : resp.ok = true) (data : Json)
    (hbody : resp.body = RespBody.jsonBody data) :
    (∀ fs, data = Json.obj fs → lookupField fs "choices" = none →
        (makeOpenrouterCall (some key) (FetchResult.resolved resp)).outcome
          = Except.error ORError.emptyCompletion)
    ∧ (∀ fs, data = Json.obj fs → lookupField fs "choices" = some (Json.arr []) →
        (makeOpenrouterCall (some key) (FetchResult.resolved resp)).outcome
          = Except.error ORError.emptyCompletion)
    ∧ (∀ fs rest, data = Json.obj fs →
        lookupField fs "choices" = some (Json.arr (Json.null :: rest)) →
        (makeOpenrouterCall (some key) (FetchResult.resolved resp)).outcome
          = Except.error (ORError.typeError "message"))
    ∧ (∀ fs cf rest mf, data = Json.obj fs →
        lookupField fs "choices" = some (Json.arr (Json.obj cf :: rest)) →
        lookupField cf "message" = some (Json.obj mf) →
        (truthy (lookupField mf "content") = false →
            (makeOpenrouterCall (some key) (FetchResult.resolved resp)).outcome
              = Except.error ORError.emptyCompletion)
        ∧ (∀ cv, lookupField mf "content" = some cv → truthy (some cv) = true →
            (makeOpenrouterCall (some key) (FetchResult.resolved resp)).outcome
              = Except.ok cv)) := by
  refine ⟨?_, ?_, ?_, ?_⟩
  · rintro fs rfl hc
    simp [makeOpenrouterCall, hk, hok, hbody, extractContent, jsGet, hc, truthy]
  · rintro fs rfl hc
    simp [makeOpenrouterCall, hk, hok, hbody, extractContent, jsGet, hc, truthy,
      jsGetSafe, jsIndex, jsGetOpt]
  · rintro fs rest rfl hc
    simp [makeOpenrouterCall, hk, hok, hbody, extractContent, jsGet, hc, truthy,
      jsGetSafe, jsIndex, jsGetOpt,
      (show ((rest.length : Int) + 1 ≠ 0) by omega)]
  · rintro fs cf rest mf rfl hc hm
    constructor
    · intro hct
      simp [makeOpenrouterCall, hk, hok, hbody, extractContent, jsGet, hc, truthy,
        jsGetSafe, jsIndex, jsGetOpt, hm, hct,
        (show ((rest.length : Int) + 1 ≠ 0) by omega)]
      simp [truthy] at hct
      simp [hct]
    · rintro cv hcv htr
      simp [makeOpenrouterCall, hk, hok, hbody, extractContent, jsGet, hc, truthy,
        jsGetSafe, jsIndex, jsGetOpt, hm, hcv, htr,
        (show ((rest.length : Int) + 1 ≠ 0) by omega)]
      simp [truthy] at htr
      simp [htr]

/-- Witness for C5 (amended): a well-formed success body returns the
content string verbatim. -/
theorem makeOpenrouterCall_success_content_witness :
    (makeOpenrouterCall (some "key") (FetchResult.resolved
        { ok := true, status := 200, statusText := "OK",
          body := RespBody.jsonBody (Json.obj [("choices", Json.arr
            [Json.obj [("message", Json.obj [("content", Json.str "hello")])]])]) })).outcome
      = Except.ok (Json.str "hello") :=
  ((makeOpenrouterCall_success_content "key" (by decide)
      { ok := true, status := 200, statusText := "OK",
        body := RespBody.jsonBody (Json.obj [("choices", Json.arr
          [Json.obj [("message", Json.obj [("content", Json.str "hello")])]])]) }
      rfl
      (Json.obj [("choices", Json.arr
        [Json.obj [("message", Json.obj [("content", Json.str "hello")])]])])
      rfl).2.2.2
    [("choices", Json.arr [Json.obj [("message", Json.obj [("content", Json.str "hello")])]])]
    [("message", Json.obj [("content", Json.str "hello")])]
    []
    [("content", Json.str "hello")]
    rfl rfl rfl).2 (Json.str "hello") rfl (by decide)

/-- Counterexample for C6: the body
`\x7b"error":\x7b"code":0,"message":"oops"\x7d\x7d` decodes as the
structured error shape, yet the failure carries the HTTP status 500
rather than the body's code 0 (because `errorJson.error.code || status`
discards a falsy code). -/
theorem makeOpenrouterCall_error_body_counterexample :
    (makeOpenrouterCall (some "key") (FetchResult.resolved
        { ok := false, status := 500, statusText := "Internal Server Error",
          body := RespBody.jsonBody (Json.obj [("error",
            Json.obj [("code", Json.num 0), ("message", Json.str "oops")])]) })).outcome
      = Except.error (ORError.apiError (Json.num 500) (Json.str "oops")
          (ErrDetails.structuredErr (Json.num 500) (Json.str "oops") none))
    ∧ Json.num 500 ≠ Json.num 0 := by
  refine ⟨rfl, ?_⟩
  intro h
  exact absurd (Json.num.inj h) (by decide)

/-- Claim C6 (amended): on a non-OK response, a JSON body of the
structured shape with truthy (non-zero, non-empty) code and message makes
the failure carry that code, message and metadata; a JSON body without a
truthy `error` field makes it carry the HTTP status/status text with the
raw decoded body as context; a non-JSON body carries the raw text; an
unreadable body carries a placeholder. -/
theorem makeOpenrouterCall_error_body (key : String) (hk : key ≠ "")
    (resp : FetchResponse) (hok : resp.ok = false) :
    (∀ fs ef (code : Int) (msgs : String), code ≠ 0 → msgs ≠ "" →
        resp.body = RespBody.jsonBody (Json.obj fs) →
        lookupField fs "error" = some (Json.obj ef) →
        lookupField ef "code" = some (Json.num code) →
        lookupField ef "message" = some (Json.str msgs) →
        (makeOpenrouterCall (some key) (FetchResult.resolved resp)).outcome
          = Except.error (ORError.apiError (Json.num code) (Json.str msgs)
              (ErrDetails.structuredErr (Json.num code) (Json.str msgs)
                (lookupField ef "metadata"))))
    ∧ (∀ j, resp.body = RespBody.jsonBody j →
        (truthy (some j) && truthy (jsGetSafe (some j) "error")) = false →
        (makeOpenrouterCall (some key) (FetchResult.resolved resp)).outcome
          = Except.error (ORError.apiError (Json.num resp.status)
              (Json.str resp.statusText) (ErrDetails.rawJson j)))
    ∧ (∀ t, resp.body = RespBody.textBody t →
        (makeOpenrouterCall (some key) (FetchResult.resolved resp)).outcome
          = Except.error (ORError.apiError (Json.num resp.status)
              (Json.str resp.statusText) (ErrDetails.rawText t)))
    ∧ (resp.body = RespBody.unreadable →
        (makeOpenrouterCall (some key) (FetchResult.resolved resp)).outcome
          = Except.error (ORError.apiError (Json.num resp.status)
              (Json.str resp.statusText) ErrDetails.unreadableBody)) := by
  have hkey : truthy (some (Json.str key)) = true := by simp [truthy, hk]
  refine ⟨?_, ?_, ?_, ?_⟩
  · intro fs ef code msgs hcode hmsg hbody herr hc hmg
    simp [makeOpenrouterCall, hkey, hok, hbody, classifyErrorBody, jsGetSafe, jsGet,
      herr, hc, hmg, truthy, jsOr, hcode, hmsg, hk]
  · intro j hbody hfalsy
    simp [makeOpenrouterCall, hkey, hok, hbody, classifyErrorBody, hfalsy]
  · intro t hbody
    simp [makeOpenrouterCall, hkey, hok, hbody, classifyErrorBody]
  · intro hbody
    simp [makeOpenrouterCall, hkey, hok, hbody, classifyErrorBody]

/-- Witness for C6 (amended): HTTP 429 with body
`\x7b"error":\x7b"code":429,"message":"rate limited"\x7d\x7d` reports the
remote-API failure with code 429 and message "rate limited". -/
theorem makeOpenrouterCall_error_body_witness :
    (makeOpenrouterCall (some "key") (FetchResult.resolved
        { ok := false, status := 429, statusText := "Too Many Requests",
          body := RespBody.jsonBody (Json.obj [("error",
            Json.obj [("code", Json.num 429), ("message", Json.str "rate limited")])]) })).outcome
      = Except.error (ORError.apiError (Json.num 429) (Json.str "rate limited")
          (ErrDetails.structuredErr (Json.num 429) (Json.str "rate limited") none)) := by
  have h := (makeOpenrouterCall_error_body "key" (by decide)
    { ok := false, status := 429, statusText := "Too Many Requests",
      body := RespBody.jsonBody (Json.obj [("error",
        Json.obj [("code", Json.num 429), ("message", Json.str "rate limited")])]) } rfl).1
    [("error", Json.obj [("code", Json.num 429), ("message", Json.str "rate limited")])]
    [("code", Json.num 429), ("message", Json.str "rate limited")]
    429 "rate limited" (by decide) (by decide) rfl rfl rfl rfl
  simpa using h

/-- Claim C7: an exception thrown by the network call itself propagates as
the dedicated network-failure kind, preserving the original message, and
is distinguishable from the other error kinds. -/
theorem makeOpenrouterCall_fetch_error (key : String) (hk : key ≠ "") (msg : String) :
    (makeOpenrouterCall (some key) (FetchResult.rejected msg)).outcome
      = Except.error (ORError.fetchFailed msg)
    ∧ (∀ c m d, ORError.fetchFailed msg ≠ ORError.apiError c m d)
    ∧ ORError.fetchFailed msg ≠ ORError.emptyCompletion
    ∧ ORError.fetchFailed msg ≠ ORError.missingApiKey := by
  refine ⟨?_, ?_, ?_, ?_⟩
  · simp [makeOpenrouterCall, truthy, hk]
  · intro c m d h; cases h
  · intro h; cases h
  · intro h; cases h

/-- Witness for C7: a DNS failure message is preserved. -/
theorem makeOpenrouterCall_fetch_error_witness :
    (makeOpenrouterCall (some "sk-or-v1")
        (FetchResult.rejected "getaddrinfo ENOTFOUND openrouter.ai")).outcome
      = Except.error (ORError.fetchFailed "getaddrinfo ENOTFOUND openrouter.ai") :=
  (makeOpenrouterCall_fetch_error "sk-or-v1" (by decide)
    "getaddrinfo ENOTFOUND openrouter.ai").1

/-- Claim C8: a JSON-mode parse success returns the parsed value with no
schema validation; a parse failure after fence cleaning is the terminal
malformed-JSON failure; and `makeLLMCall`'s result is exactly the JSON
attempt's result with no network attempt after it. -/
theorem jsonMode_unvalidated_terminal :
    (∀ apiKey fetchNet (args : JsonModeArgs) (raw : String) (v : Json),
        (makeOpenrouterCall apiKey (fetchNet (jsonModeRequestBody args))).outcome
          = Except.ok (Json.str raw) →
        parseJSON (cleanFences raw) = some v →
        (_callInJSONMode apiKey fetchNet args).2 = Except.ok v)
    ∧ (∀ apiKey fetchNet (args : JsonModeArgs) (raw : String),
        (makeOpenrouterCall apiKey (fetchNet (jsonModeRequestBody args))).outcome
          = Except.ok (Json.str raw) →
        parseJSON (cleanFences raw) = none →
        (_callInJSONMode apiKey fetchNet args).2
          = Except.error CallError.jsonModeParseFailed)
    ∧ (∀ apiKey fetchNet (args : MakeLLMCallArgs) jargs,
        (makeLLMCall apiKey fetchNet args).jsonCall = some jargs →
        (makeLLMCall apiKey fetchNet args).result = (_callInJSONMode apiKey fetchNet jargs).2
        ∧ ∃ pre, (makeLLMCall apiKey fetchNet args).networkRequests
            = pre ++ (_callInJSONMode apiKey fetchNet jargs).1) := by
  refine ⟨?_, ?_, ?_⟩
  · intro apiKey fetchNet args raw v hout hparse
    simp [_callInJSONMode, hout, hparse]
  · intro apiKey fetchNet args raw hout hparse
    simp [_callInJSONMode, hout, hparse]
  · intro apiKey fetchNet args jargs hj
    rcases args with ⟨sp, up, pm, bm, sch, sn, fj, ro⟩
    cases sch with
    | none =>
      simp [makeLLMCall, jsonPhase] at hj
      subst hj
      exact ⟨by simp [makeLLMCall, jsonPhase], [], by simp [makeLLMCall, jsonPhase]⟩
    | some s =>
      by_cases h : pm.supportsStructuredOutput && !fj
      · rcases h' : (_callInStructuredOutputMode apiKey fetchNet
          { systemPrompt := jsOrStr sp defaultStructuredSystemPrompt, userPrompt := up,
            primaryModel := pm, backupModels := bm, schema := s,
            schemaName := sn, routingOptions := ro }).2 with e | v
        · simp [makeLLMCall, jsonPhase, h, h'] at hj
          subst hj
          refine ⟨by simp [makeLLMCall, jsonPhase, h, h'],
            (_callInStructuredOutputMode apiKey fetchNet
              { systemPrompt := jsOrStr sp defaultStructuredSystemPrompt, userPrompt := up,
                primaryModel := pm, backupModels := bm, schema := s,
                schemaName := sn, routingOptions := ro }).1,
            by simp [makeLLMCall, jsonPhase, h, h']⟩
        · simp [makeLLMCall, jsonPhase, h, h'] at hj
      · simp [makeLLMCall, jsonPhase, h] at hj
        subst hj
        exact ⟨by simp [makeLLMCall, jsonPhase, h], [], by simp [makeLLMCall, jsonPhase, h]⟩

/-- Witness for C8: a fenced JSON content string parses and is returned by
`makeLLMCall` even though the supplied schema rejects every value. -/
theorem jsonMode_unvalidated_terminal_witness :
    (makeLLMCall (some "key")
        (fun _ => FetchResult.resolved
          { ok := true, status := 200, statusText := "OK",
            body := RespBody.jsonBody (Json.obj [("choices", Json.arr [Json.obj
              [("message", Json.obj [("content",
                 Json.str "```json\n\x7b\"a\":1\x7d\n```")])]])]) })
        { userPrompt := "p", primaryModel := Models.GPT4o,
          schema := some { jsonSchema := Json.obj [], safeParse := fun _ => none },
          forceJsonMode := true }).result
      = Except.ok (Json.obj [("a", Json.num 1)]) := by
  have h3 := (jsonMode_unvalidated_terminal.2.2 (some "key")
      (fun _ => FetchResult.resolved
        { ok := true, status := 200, statusText := "OK",
          body := RespBody.jsonBody (Json.obj [("choices", Json.arr [Json.obj
            [("message", Json.obj [("content",
               Json.str "```json\n\x7b\"a\":1\x7d\n```")])]])]) })
      { userPrompt := "p", primaryModel := Models.GPT4o,
        schema := some { jsonSchema := Json.obj [], safeParse := fun _ => none },
        forceJsonMode := true }
      { userPrompt := "p", primaryModel := Models.GPT4o } rfl).1
  have h1 := jsonMode_unvalidated_terminal.1 (some "key")
      (fun _ => FetchResult.resolved
        { ok := true, status := 200, statusText := "OK",
          body := RespBody.jsonBody (Json.obj [("choices", Json.arr [Json.obj
            [("message", Json.obj [("content",
               Json.str "```json\n\x7b\"a\":1\x7d\n```")])]])]) })
      { userPrompt := "p", primaryModel := Models.GPT4o }
      "```json\n\x7b\"a\":1\x7d\n```" (Json.obj [("a", Json.num 1)]) rfl rfl
  exact h3.trans h1

/-- Counterexample for C9: fence-stripping-plus-trim is not idempotent —
on an input whose fences are surrounded by spaces, one application leaves
the fences in place and a second application removes them. -/
theorem cleanFences_not_idempotent :
    cleanFences (cleanFences " ```json\n\x7b\"a\":1\x7d\n``` ")
      ≠ cleanFences " ```json\n\x7b\"a\":1\x7d\n``` " := by decide

/-- Claim C9 (amended): the fenced example and the unfenced example both
parse to the value `\x7b a: 1 \x7d` exactly, and cleaning is idempotent
provided the cleaned string does not itself re-expose a leading or
trailing fence marker. -/
theorem cleanFences_exact_parse :
    parseJSON (cleanFences "```json\n\x7b\"a\":1\x7d\n```")
      = some (Json.obj [("a", Json.num 1)])
    ∧ parseJSON (cleanFences "\x7b\"a\":1\x7d") = some (Json.obj [("a", Json.num 1)])
    ∧ parseJSON "\x7b\"a\":1\x7d" = some (Json.obj [("a", Json.num 1)])
    ∧ (∀ s, strStartsWith (cleanFences s) "```json" = false →
        strEndsWith (cleanFences s) "```" = false →
        cleanFences (cleanFences s) = cleanFences s) :=
  ⟨rfl, rfl, rfl, cleanFences_cond_idem⟩

/-- Witness for C9 (amended): the fenced example itself satisfies the
idempotence side condition. -/
theorem cleanFences_exact_parse_witness :
    cleanFences (cleanFences "```json\n\x7b\"a\":1\x7d\n```")
      = cleanFences "```json\n\x7b\"a\":1\x7d\n```" :=
  cleanFences_exact_parse.2.2.2 "```json\n\x7b\"a\":1\x7d\n```" (by decide) (by decide)

/-- Claim C10: the built provider preferences never contain an empty
`order` or `ignore` list; an empty resolved list (in particular an empty
caller override, even over a non-empty model default) omits the field
entirely. -/
theorem buildRoutingOptions_no_empty_lists (pm : ModelInfo) (backups : List ModelInfo)
    (ov : Option RoutingOptions) :
    (_buildRoutingOptions pm backups ov).1.order ≠ some []
    ∧ (_buildRoutingOptions pm backups ov).1.ignore ≠ some []
    ∧ (∀ o, ov = some o → o.providerOrder = some [] →
        (_buildRoutingOptions pm backups ov).1.order = none)
    ∧ (∀ o, ov = some o → o.ignoredProviders = some [] →
        (_buildRoutingOptions pm backups ov).1.ignore = none) := by
  refine ⟨?_, ?_, ?_, ?_⟩
  · simp only [_buildRoutingOptions]
    cases h : (ov.bind fun o => o.providerOrder).orElse fun _ =>
        pm.defaultRoutingOptions.bind fun d => d.providerOrder with
    | none => simp [h]
    | some l => cases l <;> simp [h]
  · simp only [_buildRoutingOptions]
    cases h : (ov.bind fun o => o.ignoredProviders).orElse fun _ =>
        pm.defaultRoutingOptions.bind fun d => d.ignoredProviders with
    | none => simp [h]
    | some l => cases l <;> simp [h]
  · rintro o rfl ho
    simp [_buildRoutingOptions, ho, Option.orElse]
  · rintro o rfl ho
    simp [_buildRoutingOptions, ho, Option.orElse]

/-- Witness for C10: an empty-list override over `DeepseekR1`'s non-empty
default omits both fields. -/
theorem buildRoutingOptions_no_empty_lists_witness :
    (_buildRoutingOptions Models.DeepseekR1 []
        (some { providerOrder := some [], ignoredProviders := some [] })).1.order = none
    ∧ (_buildRoutingOptions Models.DeepseekR1 []
        (some { providerOrder := some [], ignoredProviders := some [] })).1.ignore = none :=
  ⟨(buildRoutingOptions_no_empty_lists Models.DeepseekR1 []
      (some { providerOrder := some [], ignoredProviders := some [] })).2.2.1 _ rfl rfl,
   (buildRoutingOptions_no_empty_lists Models.DeepseekR1 []
      (some { providerOrder := some [], ignoredProviders := some [] })).2.2.2 _ rfl rfl⟩

end OpenRouter
